import Mathlib

/-!
Verification development for the antigravity-quota service: a shallow
embedding of its credential-freshness and debounced-fetch core together
with the two response shapers, and proofs of the specified properties.

The repository ships its configuration (`src/config.py`), entry point and
test suite; the modules `src/cloudcode_client.py`, `src/api.py` and
`src/zai_client.py` that the tests import are not present, so the
functions below that come from those modules are modelled from the
specification (and pinned by the repository's test expectations), as the
doc comments state.
-/

/-! ## Credential records (spec section 3, Data Model) -/

/-- The six optional fields a raw on-disk credential shape may carry.
Timestamps are Unix seconds (`expiry_timestamp`, `expires_in`) or Unix
milliseconds (`timestamp`). -/
structure RawFields where
  access_token : Option String
  refresh_token : Option String
  expiry_timestamp : Option Nat
  timestamp : Option Nat
  expires_in : Option Nat
  project_id : Option String
deriving DecidableEq, Repr

/-- A raw field block with every key absent (the JSON record with none of
the recognised keys). -/
def RawFields.empty : RawFields :=
  ⟨none, none, none, none, none, none⟩

/-- A raw on-disk account record: either the nested legacy shape (the
fields live under a `token` key) or the flat legacy shape (the fields are
top-level). The empty JSON record is `⟨none, RawFields.empty⟩`. -/
structure RawAccount where
  token : Option RawFields
  flat : RawFields
deriving DecidableEq, Repr

/-- The empty account record. -/
def RawAccount.emptyRec : RawAccount :=
  ⟨none, RawFields.empty⟩

/-- Modelled from the spec: `normalize_account` from the missing module
`src/cloudcode_client.py`. Per sections 3 and 4.1, it is tolerant of
missing keys and of both legacy shapes, returns the four-tuple
`(access_token, refresh_token, expiry_timestamp, project_id)`, and for
the flat shape carrying an issuance `timestamp` (milliseconds) plus
`expires_in` (seconds) derives the absolute expiry as
`timestamp / 1000 + expires_in` (floor division). -/
def normalize_account (a : RawAccount) :
    Option String × Option String × Option Nat × Option String :=
  let f := a.token.getD a.flat
  let expiry : Option Nat :=
    match f.expiry_timestamp with
    | some e => some e
    | none =>
      match f.timestamp, f.expires_in with
      | some tms, some e => some (tms / 1000 + e)
      | _, _ => none
  (f.access_token, f.refresh_token, expiry, f.project_id)

/-! ## Token refresher (spec section 4.2) -/

/-- A successful OAuth refresh-token grant response:
`{access_token, expires_in, [refresh_token]}`. -/
structure RefreshResponse where
  access_token : String
  expires_in : Nat
  refresh_token : Option String
deriving DecidableEq, Repr

/-- The normalized credential record the refresher operates on. -/
structure CredRecord where
  access_token : Option String
  refresh_token : Option String
  expiry_timestamp : Option Nat
  project_id : Option String
deriving DecidableEq, Repr

/-- Errors of the token refresher (spec section 7 taxonomy). -/
inductive TokenError where
  | missingCredentials
  | refreshRejected
deriving DecidableEq, Repr

/-- The observable outcome of one `ensure_fresh_token` call: the returned
access token (or error), the list of refresh tokens sent to the identity
provider (one entry per exchange), and the list of records persisted to
the credential store (one entry per write). -/
structure RefreshOutcome where
  result : Except TokenError String
  exchanges : List String
  writes : List CredRecord
deriving Repr

/-- Modelled from the spec: `ensure_fresh_token` from the missing module
`src/cloudcode_client.py` (spec section 4.2). Fails with the
missing-credentials error unless both tokens are present; returns the
existing access token untouched when `expiry_timestamp` is more than the
safety margin in the future; otherwise performs one refresh-token grant
exchange, persists one updated record with
`expiry_timestamp = now + expires_in`, and returns the new access token.
The identity provider's answer to the exchange is the `exchange`
argument; a missing stored expiry is treated as already expired. -/
def ensure_fresh_token (margin now : Nat)
    (exchange : Except Unit RefreshResponse) (a : CredRecord) :
    RefreshOutcome :=
  match a.access_token, a.refresh_token with
  | some tok, some rtok =>
    let exp := a.expiry_timestamp.getD 0
    if now + margin < exp then
      { result := .ok tok, exchanges := [], writes := [] }
    else
      match exchange with
      | .error _ =>
        { result := .error .refreshRejected, exchanges := [rtok], writes := [] }
      | .ok resp =>
        let updated : CredRecord :=
          { access_token := some resp.access_token
            refresh_token := some (resp.refresh_token.getD rtok)
            expiry_timestamp := some (now + resp.expires_in)
            project_id := a.project_id }
        { result := .ok resp.access_token
          exchanges := [rtok]
          writes := [updated] }
  | _, _ =>
    { result := .error .missingCredentials, exchanges := [], writes := [] }

/-! ## Credential store loader (spec section 4.1) -/

/-- Errors of the credential loader. -/
inductive LoadError where
  | notFound
  | invalidJson
deriving DecidableEq, Repr

/-- Modelled from the spec: `load_account` from the missing module
`src/cloudcode_client.py` (spec section 4.1). The backing file is
modelled as `none` when absent and `some contents` when present, where
`contents` is `some record` exactly when the file parses as JSON to that
record. The loader fails with the not-found error when the file is
absent and otherwise returns the parsed record exactly as stored. -/
def load_account (file : Option (Option RawAccount)) :
    Except LoadError RawAccount :=
  match file with
  | none => .error .notFound
  | some none => .error .invalidJson
  | some (some rec) => .ok rec

/-! ## Debounced quota fetcher (spec section 4.3, config from src/src/config.py) -/

/-- Query debounce time in minutes: the default value of the
`QUERY_DEBOUNCE` environment variable in `src/config.py`
(`int(os.getenv("QUERY_DEBOUNCE", "1"))`). -/
def QUERY_DEBOUNCE : Nat := 1

/-- The debounce window in seconds for a configured debounce of
`m` minutes. -/
def debounce_window (m : Nat) : Nat := m * 60

/-- A provider's quota cache entry: the raw payload plus the Unix second
at which it was fetched. -/
structure CacheEntry (α : Type) where
  payload : α
  fetched_at : Nat
deriving DecidableEq, Repr

/-- The observable outcome of one `get_quota_data` read: the payload
returned, how many times the token refresher was invoked, how many
upstream quota fetches were issued, and the cache entry left behind. -/
structure FetchTrace (α : Type) where
  result : α
  tokenRefresherCalls : Nat
  upstreamFetches : Nat
  cacheAfter : CacheEntry α
deriving DecidableEq, Repr

/-- Modelled from the spec: the success path of `get_quota_data` from the
missing module `src/api.py` (spec section 4.3). A non-stale cache entry
(`now - fetched_at < window`) is returned as-is with no token or network
activity; otherwise the fetcher obtains a fresh token, issues the
upstream quota request (its payload is the `fresh` argument) and
replaces the cache entry wholesale with `fetched_at = now`. -/
def get_quota_data {α : Type} (window now : Nat)
    (cache : Option (CacheEntry α)) (fresh : α) : FetchTrace α :=
  match cache with
  | some e =>
    if now - e.fetched_at < window then
      { result := e.payload
        tokenRefresherCalls := 0
        upstreamFetches := 0
        cacheAfter := e }
    else
      { result := fresh
        tokenRefresherCalls := 1
        upstreamFetches := 1
        cacheAfter := ⟨fresh, now⟩ }
  | none =>
    { result := fresh
      tokenRefresherCalls := 1
      upstreamFetches := 1
      cacheAfter := ⟨fresh, now⟩ }

/-! ## CloudCode response shaper (pinned by src/test/test_api.py) -/

/-- Boolean test for `pat` occurring as a contiguous run inside `s`. -/
def containsSub (pat : List Char) : List Char → Bool
  | [] => pat.isEmpty
  | c :: rest => pat.isPrefixOf (c :: rest) || containsSub pat rest

/-- A model name is kept by the CloudCode shaper exactly when it names a
Gemini or Claude model. -/
def allowed_model (name : String) : Bool :=
  containsSub "gemini".data name.data || containsSub "claude".data name.data

/-- Per-model quota information in the raw CloudCode payload. -/
structure QuotaInfo where
  remainingFraction : ℚ
  resetTime : String
deriving DecidableEq, Repr

/-- The raw CloudCode quota payload: the `models` object as an
association list from model name to quota information. -/
structure CcPayload where
  models : List (String × QuotaInfo)
deriving DecidableEq, Repr

/-- One shaped quota record. -/
structure CcModel where
  name : String
  percentage : ℤ
  reset_time : String
deriving DecidableEq, Repr

/-- The shaped response returned by the CloudCode quota path. -/
structure CcResponse where
  models : List CcModel
  last_updated : Nat
  is_forbidden : Bool
deriving DecidableEq, Repr

/-- Name order on shaped records. -/
def byName (a b : CcModel) : Prop := a.name ≤ b.name

instance : DecidableRel byName := fun a b => String.decidableLE a.name b.name

instance : IsTotal CcModel byName := ⟨fun a b => le_total a.name b.name⟩

instance : IsTrans CcModel byName := ⟨fun _ _ _ => le_trans⟩

/-- Modelled from the spec: `format_quota` from the missing module
`src/api.py`. Per the spec's section 6 response shape and the
expectations in `src/test/test_api.py`, it keeps only Gemini and Claude
models, converts each `remainingFraction` to an integer percentage
(`remainingFraction * 100`, rounded), and lists the kept models in
ascending alphabetical order by name. -/
def format_quota (p : CcPayload) (now : Nat) : CcResponse :=
  let kept := p.models.filter (fun e => allowed_model e.1)
  let shaped := kept.map (fun e =>
    CcModel.mk e.1 (round (e.2.remainingFraction * 100)) e.2.resetTime)
  { models := List.insertionSort byName shaped
    last_updated := now
    is_forbidden := false }

/-- Upstream outcomes of the CloudCode quota fetch. -/
inductive FetchResult where
  | ok (payload : CcPayload)
  | forbidden
  | httpError
deriving Repr

/-- Modelled from the spec: the quota endpoint path of the missing module
`src/api.py` (spec sections 4.3 and 7). A successfully fetched payload
is shaped with `is_forbidden = false`; a permission/authorization
failure from upstream is propagated as a shaped response carrying
`is_forbidden = true` instead of an exception; a transient HTTP failure
is the `UpstreamFetchError` case, modelled as `none`. -/
def get_quota_response (r : FetchResult) (now : Nat) : Option CcResponse :=
  match r with
  | .ok p => some (format_quota p now)
  | .forbidden => some { models := [], last_updated := now, is_forbidden := true }
  | .httpError => none

/-! ## GLM response shaper (pinned by src/test/test_glm_endpoint.py) -/

/-- One MCP tool usage detail in the processed GLM limit structure. -/
structure UsageDetail where
  modelCode : String
  usage : ℤ
deriving DecidableEq, Repr

/-- One processed GLM limit entry (output of `process_quota_limit`):
`type` is "Token usage(5 Hour)" for the token limit or
"MCP usage(1 Month)" for the MCP limit. -/
structure GlmLimit where
  type : String
  percentage : ℤ
  currentUsage : ℤ
  total : ℤ
  usageDetails : List UsageDetail
deriving DecidableEq, Repr

/-- A processed GLM quota structure: `limits` is `none` for the empty
record and `some l` when a `limits` list is present. -/
structure GlmProcessed where
  limits : Option (List GlmLimit)
deriving DecidableEq, Repr

/-- One GLM shaped quota record (no reset time). -/
structure GlmModel where
  name : String
  percentage : ℤ
deriving DecidableEq, Repr

/-- The shaped GLM response. -/
structure GlmResponse where
  models : List GlmModel
  last_updated : Nat
  is_forbidden : Bool
deriving DecidableEq, Repr

/-- Modelled from the spec: the per-limit shaping step of
`format_glm_quota` from the missing module `src/zai_client.py`, pinned
by `src/test/test_glm_endpoint.py`. The token limit becomes the model
"glm" with remaining percentage `100 - percentage`; the MCP limit
becomes "glm-coding-plan-mcp-monthly" with `100 - percentage` followed
by one model per usage detail other than "zread", named
`"glm-coding-plan-" ++ modelCode` with `100 - usage`. -/
def glm_limit_models (l : GlmLimit) : List GlmModel :=
  if l.type = "Token usage(5 Hour)" then
    [⟨"glm", 100 - l.percentage⟩]
  else if l.type = "MCP usage(1 Month)" then
    ⟨"glm-coding-plan-mcp-monthly", 100 - l.percentage⟩ ::
      (l.usageDetails.filter (fun d => d.modelCode ≠ "zread")).map
        (fun d => ⟨"glm-coding-plan-" ++ d.modelCode, 100 - d.usage⟩)
  else []

/-- Modelled from the spec: `format_glm_quota` from the missing module
`src/zai_client.py`. Shapes every limit with `glm_limit_models`,
stamps the current time and reports `is_forbidden = false` for
successfully processed data. -/
def format_glm_quota (d : GlmProcessed) (now : Nat) : GlmResponse :=
  { models := (d.limits.getD []).flatMap glm_limit_models
    last_updated := now
    is_forbidden := false }

/-! ## Theorems -/

/-- C1: For every credential record containing both `access_token` and
`refresh_token` whose `expiry_timestamp` is at or before now plus the
safety margin, `ensure_fresh_token` performs exactly one refresh-token
exchange (passing the record's `refresh_token`), returns the
`access_token` from the exchange response, and persists exactly one
updated record whose new `expiry_timestamp` equals
`now + expires_in` from the response. -/
theorem ensure_fresh_token_expired_refreshes_once
    (margin now : Nat) (a : CredRecord) (tok rtok : String) (e : Nat)
    (resp : RefreshResponse)
    (hacc : a.access_token = some tok) (href : a.refresh_token = some rtok)
    (hexp : a.expiry_timestamp = some e) (hle : e ≤ now + margin) :
    (ensure_fresh_token margin now (.ok resp) a).exchanges = [rtok] ∧
    (ensure_fresh_token margin now (.ok resp) a).result = .ok resp.access_token ∧
    ∃ updated,
      (ensure_fresh_token margin now (.ok resp) a).writes = [updated] ∧
      updated.expiry_timestamp = some (now + resp.expires_in) ∧
      updated.access_token = some resp.access_token := by
  have hnot : ¬ now + margin < (a.expiry_timestamp.getD 0) := by
    rw [hexp]; exact Nat.not_lt.mpr hle
  simp [ensure_fresh_token, hacc, href, hnot]

/-- Witness for C1: the spec's expired-token scenario at `now = 1000`,
margin 300, stored expiry 900, exchange response
`access_token = "new", expires_in = 3600`. -/
theorem ensure_fresh_token_expired_refreshes_once_witness :
    (ensure_fresh_token 300 1000 (.ok ⟨"new", 3600, none⟩)
        ⟨some "old", some "r", some 900, none⟩).exchanges = ["r"] ∧
    (ensure_fresh_token 300 1000 (.ok ⟨"new", 3600, none⟩)
        ⟨some "old", some "r", some 900, none⟩).result = .ok "new" ∧
    ∃ updated,
      (ensure_fresh_token 300 1000 (.ok ⟨"new", 3600, none⟩)
          ⟨some "old", some "r", some 900, none⟩).writes = [updated] ∧
      updated.expiry_timestamp = some 4600 ∧
      updated.access_token = some "new" :=
  ensure_fresh_token_expired_refreshes_once 300 1000
    ⟨some "old", some "r", some 900, none⟩ "old" "r" 900 ⟨"new", 3600, none⟩
    rfl rfl rfl (by decide)

/-- C2: For every credential record containing both tokens whose
`expiry_timestamp` is strictly more than the safety margin in the
future, `ensure_fresh_token` returns the existing `access_token`
unchanged, makes no refresh exchange, and performs zero writes. -/
theorem ensure_fresh_token_fresh_no_refresh
    (margin now : Nat) (a : CredRecord) (tok rtok : String) (e : Nat)
    (exchange : Except Unit RefreshResponse)
    (hacc : a.access_token = some tok) (href : a.refresh_token = some rtok)
    (hexp : a.expiry_timestamp = some e) (hgt : now + margin < e) :
    (ensure_fresh_token margin now exchange a).result = .ok tok ∧
    (ensure_fresh_token margin now exchange a).exchanges = [] ∧
    (ensure_fresh_token margin now exchange a).writes = [] := by
  have hlt : now + margin < (a.expiry_timestamp.getD 0) := by rw [hexp]; exact hgt
  simp [ensure_fresh_token, hacc, href, hlt]

/-- Witness for C2: the spec's fresh-token scenario, expiry 600 seconds
in the future against a 300-second margin. -/
theorem ensure_fresh_token_fresh_no_refresh_witness :
    (ensure_fresh_token 300 1000 (.error ())
        ⟨some "a", some "r", some 1600, none⟩).result = .ok "a" ∧
    (ensure_fresh_token 300 1000 (.error ())
        ⟨some "a", some "r", some 1600, none⟩).exchanges = [] ∧
    (ensure_fresh_token 300 1000 (.error ())
        ⟨some "a", some "r", some 1600, none⟩).writes = [] :=
  ensure_fresh_token_fresh_no_refresh 300 1000
    ⟨some "a", some "r", some 1600, none⟩ "a" "r" 1600 (.error ())
    rfl rfl rfl (by decide)

/-- C5: For every credential record in which `access_token` or
`refresh_token` is absent, `ensure_fresh_token` fails with the
missing-credentials error, performing no exchange and no store write. -/
theorem ensure_fresh_token_missing_credentials
    (margin now : Nat) (exchange : Except Unit RefreshResponse)
    (a : CredRecord)
    (h : a.access_token = none ∨ a.refresh_token = none) :
    (ensure_fresh_token margin now exchange a).result =
      .error .missingCredentials ∧
    (ensure_fresh_token margin now exchange a).exchanges = [] ∧
    (ensure_fresh_token margin now exchange a).writes = [] := by
  cases ha : a.access_token <;> cases hr : a.refresh_token <;>
    simp_all [ensure_fresh_token]

/-- Witness for C5: the spec's missing-fields scenario, a record with
only a refresh token. -/
theorem ensure_fresh_token_missing_credentials_witness :
    (ensure_fresh_token 300 1000 (.error ())
        ⟨none, some "refresh123", none, none⟩).result =
      .error .missingCredentials ∧
    (ensure_fresh_token 300 1000 (.error ())
        ⟨none, some "refresh123", none, none⟩).exchanges = [] ∧
    (ensure_fresh_token 300 1000 (.error ())
        ⟨none, some "refresh123", none, none⟩).writes = [] :=
  ensure_fresh_token_missing_credentials 300 1000 (.error ())
    ⟨none, some "refresh123", none, none⟩ (Or.inl rfl)

/-- C4: `normalize_account` is total over both legacy shapes and the
empty record: the empty record yields all four outputs absent; the flat
shape with issuance `timestamp` in milliseconds and `expires_in` in
seconds yields expiry `timestamp / 1000 + expires_in` (floor division);
the nested shape's stored absolute `expiry_timestamp` is returned
unchanged. -/
theorem normalize_account_shapes :
    normalize_account RawAccount.emptyRec = (none, none, none, none) ∧
    (∀ (f : RawFields) (tms e : Nat),
      f.expiry_timestamp = none → f.timestamp = some tms →
      f.expires_in = some e →
      (normalize_account ⟨none, f⟩).2.2.1 = some (tms / 1000 + e)) ∧
    (∀ (f g : RawFields) (e : Nat),
      f.expiry_timestamp = some e →
      (normalize_account ⟨some f, g⟩).2.2.1 = some e) := by
  refine ⟨rfl, ?_, ?_⟩
  · intro f tms e h1 h2 h3
    simp [normalize_account, h1, h2, h3]
  · intro f g e h1
    simp [normalize_account, h1]

/-- Witness for C4: the flat shape with `timestamp = 5500` milliseconds
and `expires_in = 3600` seconds normalizes to expiry
`5500 / 1000 + 3600 = 3605`, and the nested shape keeps expiry
`1234567890`. -/
theorem normalize_account_shapes_witness :
    (normalize_account
        ⟨none, ⟨some "a", some "r", none, some 5500, some 3600, none⟩⟩).2.2.1 =
      some 3605 ∧
    (normalize_account
        ⟨some ⟨some "a", some "r", some 1234567890, none, none, some "p"⟩,
          RawFields.empty⟩).2.2.1 = some 1234567890 :=
  ⟨normalize_account_shapes.2.1
      ⟨some "a", some "r", none, some 5500, some 3600, none⟩ 5500 3600
      rfl rfl rfl,
    normalize_account_shapes.2.2
      ⟨some "a", some "r", some 1234567890, none, none, some "p"⟩
      RawFields.empty 1234567890 rfl⟩

/-- C6: `load_account` fails with the not-found error whenever the
backing credential file is absent, and when the file exists and contains
valid JSON it returns the parsed record exactly as stored. -/
theorem load_account_contract (r : RawAccount) :
    load_account none = .error .notFound ∧
    load_account (some (some r)) = .ok r :=
  ⟨rfl, rfl⟩

/-- C3: a `get_quota_data` read against a cache entry is a pure cache
hit (stored payload returned, no token refresher call, no upstream
fetch, cache untouched) exactly when `now - fetched_at` is strictly
below the window; a read at or after `fetched_at + window` issues an
upstream refetch; and the debounce window defaults to 1 minute via
`QUERY_DEBOUNCE`. -/
theorem get_quota_data_debounce {α : Type} (window now : Nat)
    (e : CacheEntry α) (fresh : α) :
    (((get_quota_data window now (some e) fresh).upstreamFetches = 0 ∧
      (get_quota_data window now (some e) fresh).tokenRefresherCalls = 0 ∧
      (get_quota_data window now (some e) fresh).result = e.payload ∧
      (get_quota_data window now (some e) fresh).cacheAfter = e) ↔
      now - e.fetched_at < window) ∧
    (e.fetched_at + window ≤ now →
      (get_quota_data window now (some e) fresh).upstreamFetches = 1 ∧
      (get_quota_data window now (some e) fresh).cacheAfter.fetched_at = now) ∧
    QUERY_DEBOUNCE = 1 ∧ debounce_window QUERY_DEBOUNCE = 60 := by
  refine ⟨?_, ?_, rfl, rfl⟩
  · by_cases h : now - e.fetched_at < window
    · simp [get_quota_data, h]
    · simp [get_quota_data, h]
  · intro hle
    have h : ¬ now - e.fetched_at < window := by omega
    simp [get_quota_data, h]

/-- Witness for C3: with a 60-second window and an entry fetched at
second 1000, a read at 1030 is a pure cache hit and a read at 1060
(exactly `fetched_at + window`) issues an upstream refetch. -/
theorem get_quota_data_debounce_witness :
    ((get_quota_data 60 1030 (some ⟨41, 1000⟩) 42).upstreamFetches = 0 ∧
     (get_quota_data 60 1030 (some ⟨41, 1000⟩) 42).tokenRefresherCalls = 0 ∧
     (get_quota_data 60 1030 (some ⟨41, 1000⟩) 42).result = 41 ∧
     (get_quota_data 60 1030 (some ⟨41, 1000⟩) 42).cacheAfter =
       (⟨41, 1000⟩ : CacheEntry ℕ)) ∧
    (get_quota_data 60 1060 (some ⟨41, 1000⟩) 42).upstreamFetches = 1 ∧
    (get_quota_data 60 1060 (some ⟨41, 1000⟩) 42).cacheAfter.fetched_at = 1060 :=
  ⟨(get_quota_data_debounce 60 1030 ⟨41, 1000⟩ 42).1.mpr (by decide),
    (get_quota_data_debounce 60 1060 ⟨41, 1000⟩ 42).2.1 (by decide)⟩

/-- C7: a permission/authorization failure from the upstream quota
endpoint is surfaced as a shaped response carrying `is_forbidden = true`
(no unrecoverable exception), while a successfully fetched payload is
shaped with `is_forbidden = false`. -/
theorem get_quota_response_forbidden_flag (now : Nat) (p : CcPayload) :
    (∃ r, get_quota_response .forbidden now = some r ∧
      r.is_forbidden = true) ∧
    (∃ r, get_quota_response (.ok p) now = some r ∧
      r.is_forbidden = false) :=
  ⟨⟨_, rfl, rfl⟩, ⟨_, rfl, rfl⟩⟩

/-- An integer-valued rational survives rounding exactly. -/
theorem round_cast_of_den_one (q : ℚ) (h : q.den = 1) :
    ((round q : ℤ) : ℚ) = q := by
  have h2 : ((q.num : ℚ)) = q := (Rat.den_eq_one_iff q).mp h
  rw [← h2, round_intCast]

/-- GLM tool model names keep model codes apart: a code other than
"zread" never produces the "zread" model name. -/
theorem glm_tool_name_ne (c : String) (h : c ≠ "zread") :
    "glm-coding-plan-" ++ c ≠ "glm-coding-plan-zread" := by
  obtain ⟨cd⟩ := c
  intro heq
  apply h
  have hd : "glm-coding-plan-".data ++ cd =
      "glm-coding-plan-".data ++ "zread".data :=
    congrArg String.data heq
  exact congrArg String.mk (List.append_cancel_left hd)

/-- C10: `format_quota` emits only models whose name identifies a Gemini
or Claude model, lists them in ascending alphabetical order by name, and
converts each `remainingFraction` `f` of an emitted model to the integer
percentage `f * 100` (as the rounding of `f * 100`, which is exact
whenever `f * 100` is an integer). -/
theorem format_quota_shape (p : CcPayload) (now : Nat) :
    (∀ m ∈ (format_quota p now).models, allowed_model m.name = true) ∧
    List.Sorted byName (format_quota p now).models ∧
    (∀ e ∈ p.models, allowed_model e.1 = true →
      CcModel.mk e.1 (round (e.2.remainingFraction * 100)) e.2.resetTime ∈
        (format_quota p now).models) ∧
    (∀ m ∈ (format_quota p now).models,
      ∃ e ∈ p.models, e.1 = m.name ∧
        m.percentage = round (e.2.remainingFraction * 100) ∧
        ((e.2.remainingFraction * 100).den = 1 →
          (m.percentage : ℚ) = e.2.remainingFraction * 100)) := by
  refine ⟨?_, List.sorted_insertionSort byName _, ?_, ?_⟩
  · intro m hm
    have hm' : m ∈ (p.models.filter (fun e => allowed_model e.1)).map
        (fun e => CcModel.mk e.1 (round (e.2.remainingFraction * 100))
          e.2.resetTime) :=
      (List.perm_insertionSort byName _).mem_iff.mp hm
    obtain ⟨e, he, rfl⟩ := List.mem_map.mp hm'
    exact (List.mem_filter.mp he).2
  · intro e he hall
    exact (List.perm_insertionSort byName _).mem_iff.mpr
      (List.mem_map.mpr ⟨e, List.mem_filter.mpr ⟨he, hall⟩, rfl⟩)
  · intro m hm
    have hm' : m ∈ (p.models.filter (fun e => allowed_model e.1)).map
        (fun e => CcModel.mk e.1 (round (e.2.remainingFraction * 100))
          e.2.resetTime) :=
      (List.perm_insertionSort byName _).mem_iff.mp hm
    obtain ⟨e, he, rfl⟩ := List.mem_map.mp hm'
    exact ⟨e, (List.mem_filter.mp he).1, rfl, rfl, fun hden =>
      round_cast_of_den_one (e.2.remainingFraction * 100) hden⟩

/-- The raw payload of the CloudCode shaper test: two Gemini models, one
foreign model. -/
def ccTestPayload : CcPayload :=
  ⟨[("gemini-3-pro-high", ⟨17/20, "2025-12-26T00:00:00Z"⟩),
    ("gemini-3-flash", ⟨1, "2025-12-26T00:00:00Z"⟩),
    ("some-other-model", ⟨3/4, "2025-12-26T00:00:00Z"⟩)]⟩

/-- Witness for C10: the "gemini-3-flash" entry of the test payload has
an allowed name and is emitted with percentage `round (1 * 100)`. -/
theorem format_quota_shape_witness :
    CcModel.mk "gemini-3-flash"
        (round (((1 : ℚ)) * 100)) "2025-12-26T00:00:00Z" ∈
      (format_quota ccTestPayload 5).models :=
  (format_quota_shape ccTestPayload 5).2.2.1
    ("gemini-3-flash", ⟨1, "2025-12-26T00:00:00Z"⟩)
    (by simp [ccTestPayload]) (by decide)

/-- C9: every model emitted by `format_glm_quota` carries 100 minus the
upstream used value (`100 - percentage` for the token and MCP limits,
`100 - usage` for each MCP tool detail), the "zread" MCP tool is never
emitted, and empty input or an empty limits list yields an empty models
list with `is_forbidden = false`. -/
theorem format_glm_quota_shape (d : GlmProcessed) (now : Nat) :
    (∀ m ∈ (format_glm_quota d now).models,
      m.name ≠ "glm-coding-plan-zread" ∧
      ∃ l ∈ d.limits.getD [],
        (l.type = "Token usage(5 Hour)" ∧ m.name = "glm" ∧
          m.percentage = 100 - l.percentage) ∨
        (l.type = "MCP usage(1 Month)" ∧
          m.name = "glm-coding-plan-mcp-monthly" ∧
          m.percentage = 100 - l.percentage) ∨
        (l.type = "MCP usage(1 Month)" ∧ ∃ u ∈ l.usageDetails,
          u.modelCode ≠ "zread" ∧
          m.name = "glm-coding-plan-" ++ u.modelCode ∧
          m.percentage = 100 - u.usage)) ∧
    ((d.limits = none ∨ d.limits = some []) →
      (format_glm_quota d now).models = []) ∧
    (format_glm_quota d now).is_forbidden = false := by
  refine ⟨?_, ?_, rfl⟩
  · intro m hm
    obtain ⟨l, hl, hml⟩ := List.mem_flatMap.mp hm
    by_cases ht : l.type = "Token usage(5 Hour)"
    · rw [glm_limit_models, if_pos ht] at hml
      simp only [List.mem_singleton] at hml
      subst hml
      exact ⟨show ("glm" : String) ≠ "glm-coding-plan-zread" by decide,
        l, hl, Or.inl ⟨ht, rfl, rfl⟩⟩
    · by_cases hmcp : l.type = "MCP usage(1 Month)"
      · rw [glm_limit_models, if_neg ht, if_pos hmcp] at hml
        rcases List.mem_cons.mp hml with h1 | h2
        · subst h1
          exact ⟨show ("glm-coding-plan-mcp-monthly" : String) ≠
              "glm-coding-plan-zread" by decide,
            l, hl, Or.inr (Or.inl ⟨hmcp, rfl, rfl⟩)⟩
        · obtain ⟨u, hu, rfl⟩ := List.mem_map.mp h2
          obtain ⟨huin, hcode⟩ := List.mem_filter.mp hu
          have hcode' : u.modelCode ≠ "zread" := by
            simpa using hcode
          exact ⟨glm_tool_name_ne u.modelCode hcode',
            l, hl, Or.inr (Or.inr ⟨hmcp, u, huin, hcode', rfl, rfl⟩)⟩
      · rw [glm_limit_models, if_neg ht, if_neg hmcp] at hml
        simp at hml
  · intro hcase
    rcases hcase with h | h <;> simp [format_glm_quota, h]

/-- The processed GLM limits of the percentage-inversion test: a token
limit at 25 percent used and an MCP limit at 10 percent used with three
tool details, one of them "zread". -/
def glmTestData : GlmProcessed :=
  ⟨some [⟨"Token usage(5 Hour)", 25, 0, 0, []⟩,
    ⟨"MCP usage(1 Month)", 10, 10, 100,
      [⟨"search-prime", 5⟩, ⟨"web-reader", 3⟩, ⟨"zread", 10⟩]⟩]⟩

/-- The emitted GLM token model the witness inspects: remaining
percentage `100 - 25 = 75`. -/
def glmTestModel : GlmModel := ⟨"glm", 75⟩

/-- Witness for C9: the emitted "glm" model of the test data is not the
"zread" tool and traces back to the token limit with percentage
`100 - 25`; the empty record shapes to an empty model list. -/
theorem format_glm_quota_shape_witness :
    (glmTestModel.name ≠ "glm-coding-plan-zread" ∧
      ∃ l ∈ glmTestData.limits.getD [],
        (l.type = "Token usage(5 Hour)" ∧ glmTestModel.name = "glm" ∧
          glmTestModel.percentage = 100 - l.percentage) ∨
        (l.type = "MCP usage(1 Month)" ∧
          glmTestModel.name = "glm-coding-plan-mcp-monthly" ∧
          glmTestModel.percentage = 100 - l.percentage) ∨
        (l.type = "MCP usage(1 Month)" ∧ ∃ u ∈ l.usageDetails,
          u.modelCode ≠ "zread" ∧
          glmTestModel.name = "glm-coding-plan-" ++ u.modelCode ∧
          glmTestModel.percentage = 100 - u.usage)) ∧
    (format_glm_quota ⟨none⟩ 3).models = [] :=
  ⟨(format_glm_quota_shape glmTestData 7).1 glmTestModel (by decide),
    (format_glm_quota_shape ⟨none⟩ 3).2.1 (Or.inl rfl)⟩
